import Mathlib

/-!
Shallow embedding of the `awtotty/earth` pipeline (`core.py`, `utiligee.py`).

Python strings are modelled as `List Char`; geographic coordinates (Python
floats used only for ordering comparisons) as `Rat`; raster samples as `Int`;
the numpy `uint8` cast as reduction modulo 2^8.  Side-effecting code is
modelled by explicit operation traces (`GeeOp`, `FsOp`, `PollEv`) in the
order the source performs the effects.
-/

namespace Earth

/-- Python string, modelled as its character sequence. -/
abbrev Str := List Char

/-! ## `extract_geotiff_from_gee` (core.py lines 17-57)

The body is a straight-line sequence of Earth Engine calls with no local
validation or branching; we record it as the trace of operations it issues,
in source order. -/

/-- One Earth Engine operation issued by `extract_geotiff_from_gee`. -/
inductive GeeOp where
  /-- `ee.Initialize()` — initializes the GEE instance (remote call). -/
  | eeInit : GeeOp
  /-- `ee.Geometry.Rectangle([xmin, ymin, xmax, ymax])`. -/
  | rectangle : Rat → Rat → Rat → Rat → GeeOp
  /-- `ee.ImageCollection(dataset_name)`. -/
  | imageCollection : Str → GeeOp
  /-- `.filter(ee.Filter.date(start_date, end_date))`. -/
  | filterDate : Str → Str → GeeOp
  /-- `dataset.select(bands)`. -/
  | selectBands : List Str → GeeOp
  /-- `.mean()` — unweighted per-pixel mean composite. -/
  | meanComposite : GeeOp
  /-- `ee.batch.Export.image.toDrive(description, folder, scale, region)`. -/
  | exportToDrive : Str → Str → Int → Rat → Rat → Rat → Rat → GeeOp
  /-- `task.start()` — submits the export task. -/
  | startTask : GeeOp
deriving DecidableEq

/-- Trace of operations performed by `extract_geotiff_from_gee`
(core.py lines 17-57).  The Python body is unconditional straight-line code:
it initializes GEE, builds the rectangle geometry, opens the collection,
filters by date, selects bands, takes the mean, configures the Drive export
and starts the task, in that order, for every argument tuple. -/
def extract_geotiff_from_gee (datasetName : Str) (bands : List Str)
    (startDate endDate outputDir desc : Str) (mpp : Int)
    (xmin ymin xmax ymax : Rat) : List GeeOp :=
  GeeOp.eeInit ::
  GeeOp.rectangle xmin ymin xmax ymax ::
  GeeOp.imageCollection datasetName ::
  GeeOp.filterDate startDate endDate ::
  GeeOp.selectBands bands ::
  GeeOp.meanComposite ::
  GeeOp.exportToDrive desc outputDir mpp xmin ymin xmax ymax ::
  [GeeOp.startTask]

/-- Local validation error taxonomy of the spec's `build` operation. -/
inductive BuildError where
  | invalidRegion : BuildError
  | invalidDateRange : BuildError
  | emptyBandList : BuildError
deriving DecidableEq

/-- Modelled from the spec (for comparison with the source embedding
`extract_geotiff_from_gee`, which performs no validation): spec section 4.1,
"`build(...)` → ExtractionRequest. Fails with `InvalidRegionError` if region
invariants violated" with the region invariant "`xmin < xmax` and
`ymin < ymax`" of section 3, and "fails with `EmptyBandListError` if bands is
empty".  Only the clauses relevant to region/band validation are modelled;
the date-range clause is not needed by any claim. -/
def build_spec (bands : List Str) (xmin ymin xmax ymax : Rat) :
    Except BuildError Unit :=
  if xmin < xmax ∧ ymin < ymax then
    if bands = [] then Except.error BuildError.emptyBandList
    else Except.ok ()
  else Except.error BuildError.invalidRegion

/-! ## The export poll loop (core.py lines 54-56)

```
while task.active():
    time.sleep(1)
```

We model the remote job as the sequence of answers `task.active()` would
return (`true` = still active) and record the loop's observable events:
each status query and each sleep, with its duration in seconds.  The loop
terminates exactly when the answer sequence contains a `false`; exhausting
the list with every answer `true` models non-termination (`none`). -/

/-- An observable event of the poll loop: a `task.active()` status query, or
a `time.sleep(secs)`. -/
inductive PollEv where
  | query : PollEv
  | sleep : Nat → PollEv
deriving DecidableEq

/-- Event trace of the poll loop `while task.active(): time.sleep(1)` run
against the given sequence of `task.active()` answers.  Returns `none` when
the answers are exhausted while still active (the loop has not returned). -/
def poll_events : List Bool → Option (List PollEv)
  | [] => none
  | active :: rest =>
    if active then
      (poll_events rest).map (fun evs => PollEv.query :: PollEv.sleep 1 :: evs)
    else
      some [PollEv.query]

/-! ## `arr_from_geotiff` (core.py lines 60-91) -/

/-- A multi-band raster as `rasterio` exposes it: common spatial dimensions
and, for each 1-indexed band number, a grid of numeric samples
(`src.read(channel)`).  Samples are integers; the numpy cast into the
`uint8` output array wraps them modulo 2^8. -/
structure Raster where
  height : Nat
  width : Nat
  readBand : Nat → Nat → Nat → Int

/-- An height×width×3 `uint8` array, channel order R, G, B
(`np.zeros((h, w, 3), dtype=np.uint8)` after channel assignments). -/
structure RGBImage where
  height : Nat
  width : Nat
  pix : Nat → Nat → Fin 3 → Nat

/-- The numpy cast of a sample into a `uint8` cell: reduction modulo 2^8
(integral samples wrap; no range check, no clamping). -/
def uint8cast (x : Int) : Nat := (x % 256).toNat

/-- `np.zeros((h, w, 3), dtype=np.uint8)`: every cell 0. -/
def zerosImg : Nat → Nat → Fin 3 → Nat := fun _ _ _ => 0

/-- `img_arr[:,:,c] = band`: overwrite channel `c` with the band's samples,
cast to `uint8`; other channels unchanged. -/
def setChannel (img : Nat → Nat → Fin 3 → Nat) (c : Fin 3)
    (band : Nat → Nat → Int) : Nat → Nat → Fin 3 → Nat :=
  fun i j cq => if cq = c then uint8cast (band i j) else img i j cq

/-- `.tif`, the fixed raster extension of `arr_from_geotiff`. -/
def tifSuffix : Str := ['.', 't', 'i', 'f']

/-- The path normalization at the top of `arr_from_geotiff`
(core.py lines 78-79): `if not fname.endswith('.tif'): fname += '.tif'`. -/
def normalize_fname (fname : Str) : Str :=
  if tifSuffix.isSuffixOf fname then fname else fname ++ tifSuffix

/-- `arr_from_geotiff` (core.py lines 60-91), given the raster the
(normalized) path resolves to.  Python defaults are `r_channel=1`,
`g_channel=2`, `b_channel=3`.  Reads the three requested 1-indexed bands,
zero-initializes an `(h, w, 3)` `uint8` array and assigns the bands to
channels 0, 1, 2 in turn. -/
def arr_from_geotiff (src : Raster) (rChannel gChannel bChannel : Nat) :
    RGBImage :=
  let r := src.readBand rChannel
  let g := src.readBand gChannel
  let b := src.readBand bChannel
  let a0 := zerosImg
  let a1 := setChannel a0 0 r
  let a2 := setChannel a1 1 g
  let a3 := setChannel a2 2 b
  { height := src.height, width := src.width, pix := a3 }

/-! ## `save_img` (core.py lines 95-116) and `trim_slash_from_path` -/

/-- Modelled from the spec: `trim_slash_from_path` is imported from
`util.py`, which is not under src; spec section 4.4 says `save`
"normalizes `output_dir` by stripping any trailing path separators".
Strips every trailing `/` from the path. -/
def trim_slash_from_path (path : Str) : Str :=
  (path.reverse.dropWhile (fun c => c = '/')).reverse

/-- The output file path `save_img` writes to:
`fname = f"{output_dir}/{name}.{format}"` after
`output_dir = trim_slash_from_path(output_dir)` (core.py lines 110-111). -/
def save_fname (name format outputDir : Str) : Str :=
  trim_slash_from_path outputDir ++ '/' :: (name ++ '.' :: format)

/-- A filesystem effect of `save_img`. -/
inductive FsOp where
  /-- `Path(output_dir).mkdir(parents=True, exist_ok=True)`. -/
  | mkdirAll : Str → FsOp
  /-- `img_arr.save(fname)`. -/
  | writeImage : Str → FsOp
deriving DecidableEq

/-- The filesystem effects of `save_img` (core.py lines 110-116), in source
order: first ensure the (trimmed) output directory exists, then write the
image to `{output_dir}/{name}.{format}`. -/
def save_img_ops (name format outputDir : Str) : List FsOp :=
  let od := trim_slash_from_path outputDir
  [FsOp.mkdirAll od, FsOp.writeImage (save_fname name format outputDir)]

/-- The directories `mkdir(parents=True)` guarantees to exist afterwards:
every `/`-boundary ancestor of the path, the path itself included. -/
def dirAncestors (dir : Str) : List Str :=
  ((dir.splitOn '/').inits.drop 1).map (List.intercalate ['/'])

/-- Filesystem state: the set of existing directories. -/
structure FS where
  dirs : List Str

/-- Effect of one `FsOp` on the filesystem.  `mkdirAll` creates the
directory and all missing parents and cannot fail (`exist_ok=True`);
`writeImage` succeeds iff `writeOk` (modelling an encoder/IO failure)
and never changes the directory set. -/
def runFsOp (fs : FS) (writeOk : Bool) : FsOp → FS × Bool
  | FsOp.mkdirAll d => ({ dirs := d :: dirAncestors d ++ fs.dirs }, true)
  | FsOp.writeImage _ => (fs, writeOk)

/-- Run a list of filesystem effects in order; a failing effect raises,
aborting the rest but keeping the state changes already made. -/
def runFsOps (fs : FS) (writeOk : Bool) : List FsOp → FS × Bool
  | [] => (fs, true)
  | op :: rest =>
    let r := runFsOp fs writeOk op
    if r.2 then runFsOps r.1 writeOk rest else (r.1, false)

end Earth

namespace Earth

/-! ## Helper lemmas and concrete witness rasters -/

/-- Channel semantics of `arr_from_geotiff`: after the three assignments,
channel 0 holds the `uint8` cast of `r_channel`'s samples, channel 1 of
`g_channel`'s, channel 2 of `b_channel`'s. -/
theorem arr_pix (src : Raster) (rc gc bc i j : Nat) :
    (arr_from_geotiff src rc gc bc).pix i j 0 = uint8cast (src.readBand rc i j) ∧
    (arr_from_geotiff src rc gc bc).pix i j 1 = uint8cast (src.readBand gc i j) ∧
    (arr_from_geotiff src rc gc bc).pix i j 2 = uint8cast (src.readBand bc i j) := by
  refine ⟨?_, ?_, ?_⟩ <;> simp [arr_from_geotiff, setChannel]

/-- A concrete 2×2 3-band raster whose bands 1, 2, 3 hold the constant
values 10, 20, 30. -/
def constRaster : Raster where
  height := 2
  width := 2
  readBand := fun b _ _ =>
    if b = 1 then 10 else if b = 2 then 20 else if b = 3 then 30 else 0

/-- A concrete 1×1 raster whose samples lie outside the 8-bit range
(300, -1 and 1000). -/
def hotRaster : Raster where
  height := 1
  width := 1
  readBand := fun b _ _ => if b = 1 then 300 else if b = 2 then -1 else 1000

/-! ## Claims -/

/-- Claim C1, counterexample: at the invalid region `xmin = 1, ymin = 0,
xmax = 0, ymax = 1` (violating `xmin < xmax`), the spec's `build` fails with
`InvalidRegionError`, but the source's `extract_geotiff_from_gee` does not
fail before a remote call: its first operation is the remote
`ee.Initialize()` call and it goes on to start the export task. -/
theorem C1_invalid_region_still_submits :
    build_spec [['R']] 1 0 0 1 = Except.error BuildError.invalidRegion ∧
    (extract_geotiff_from_gee ['d'] [['R']] ['s'] ['e'] ['o'] ['f'] 30 1 0 0 1).head?
      = some GeeOp.eeInit ∧
    GeeOp.startTask ∈
      extract_geotiff_from_gee ['d'] [['R']] ['s'] ['e'] ['o'] ['f'] 30 1 0 0 1 :=
  ⟨rfl, rfl, by simp [extract_geotiff_from_gee]⟩

/-- Claim C1, amended: `extract_geotiff_from_gee` performs no region
validation at all.  For every region — valid or violating `xmin < xmax` or
`ymin < ymax` — it runs the identical straight-line operation sequence,
whose first operation is the remote `ee.Initialize()` call and which ends
by starting the export task; no `InvalidRegionError` is ever raised (none
exists in the code). -/
theorem C1_no_region_validation (datasetName : Str) (bands : List Str)
    (startDate endDate outputDir desc : Str) (mpp : Int)
    (xmin ymin xmax ymax : Rat) :
    extract_geotiff_from_gee datasetName bands startDate endDate outputDir desc
        mpp xmin ymin xmax ymax =
      GeeOp.eeInit ::
      GeeOp.rectangle xmin ymin xmax ymax ::
      GeeOp.imageCollection datasetName ::
      GeeOp.filterDate startDate endDate ::
      GeeOp.selectBands bands ::
      GeeOp.meanComposite ::
      GeeOp.exportToDrive desc outputDir mpp xmin ymin xmax ymax ::
      [GeeOp.startTask] ∧
    (extract_geotiff_from_gee datasetName bands startDate endDate outputDir desc
        mpp xmin ymin xmax ymax).head? = some GeeOp.eeInit ∧
    GeeOp.startTask ∈ extract_geotiff_from_gee datasetName bands startDate endDate
        outputDir desc mpp xmin ymin xmax ymax := by
  refine ⟨rfl, rfl, ?_⟩
  simp [extract_geotiff_from_gee]

/-- Claim C2: whenever the poll loop returns (its event trace is `some evs`),
it performed at least one `task.active()` query; the trace is exactly
`(n-1)` repetitions of query-then-sleep(1) followed by one final query,
so a 1-second sleep separates every pair of consecutive queries (no
busy-spinning); the status answered at the final query is inactive
(`false`), and every earlier answer was active (`true`) — the loop returns
only once the job's status has left the active set, at the first
opportunity. -/
theorem C2_poll_loop_queries_and_sleeps (st : List Bool) (evs : List PollEv)
    (h : poll_events st = some evs) :
    1 ≤ evs.count PollEv.query ∧
    evs = (List.replicate (evs.count PollEv.query - 1)
            [PollEv.query, PollEv.sleep 1]).flatten ++ [PollEv.query] ∧
    st[evs.count PollEv.query - 1]? = some false ∧
    ∀ k, k < evs.count PollEv.query - 1 → st[k]? = some true := by
  induction st generalizing evs with
  | nil => simp [poll_events] at h
  | cons a rest ih =>
    cases a with
    | false =>
      have h2 : some [PollEv.query] = some evs := h
      obtain rfl : [PollEv.query] = evs := Option.some.injEq _ _ ▸ h2
      refine ⟨by decide, by decide, ?_, ?_⟩
      · have hc : ([PollEv.query].count PollEv.query) = 1 := by decide
        rw [hc]
        simp
      · intro k hk
        have hc : ([PollEv.query].count PollEv.query) = 1 := by decide
        rw [hc] at hk
        omega
    | true =>
      have h2 : (poll_events rest).map
          (fun evs => PollEv.query :: PollEv.sleep 1 :: evs) = some evs := h
      obtain ⟨evsq, hrest, heq⟩ := Option.map_eq_some'.mp h2
      subst heq
      obtain ⟨hq, hshape, hfalse, hall⟩ := ih evsq hrest
      have hcount : (PollEv.query :: PollEv.sleep 1 :: evsq).count PollEv.query
          = evsq.count PollEv.query + 1 := by
        simp [List.count_cons]
      refine ⟨?_, ?_, ?_, ?_⟩
      · rw [hcount]; omega
      · rw [hcount]
        have h2 : evsq.count PollEv.query + 1 - 1
            = (evsq.count PollEv.query - 1) + 1 := by omega
        rw [h2, List.replicate_succ, List.flatten_cons]
        simpa using congrArg (fun l => PollEv.query :: PollEv.sleep 1 :: l) hshape
      · rw [hcount]
        have h2 : evsq.count PollEv.query + 1 - 1
            = (evsq.count PollEv.query - 1) + 1 := by omega
        rw [h2, List.getElem?_cons_succ]
        exact hfalse
      · intro k hk
        rw [hcount] at hk
        cases k with
        | zero => simp
        | succ k =>
          rw [List.getElem?_cons_succ]
          exact hall k (by omega)

/-- Claim C2 witness: on the concrete status sequence [active, inactive] the
loop's trace is query, sleep 1, query: at least one query happens, and the
status answered at the last query is inactive. -/
theorem C2_poll_loop_queries_and_sleeps_witness :
    1 ≤ ([PollEv.query, PollEv.sleep 1, PollEv.query].count PollEv.query) ∧
    [true, false][([PollEv.query, PollEv.sleep 1, PollEv.query].count PollEv.query) - 1]?
      = some false :=
  ⟨(C2_poll_loop_queries_and_sleeps [true, false] _ rfl).1,
   (C2_poll_loop_queries_and_sleeps [true, false] _ rfl).2.2.1⟩

/-- Claim C3: for every raster whose bands 1, 2, 3 hold the constants
10, 20, 30 on the grid, `arr_from_geotiff` with the default channel mapping
(1, 2, 3) yields an image of the same height and width whose channel 0 is
uniformly 10, channel 1 uniformly 20, channel 2 uniformly 30. -/
theorem C3_convert_default_mapping (src : Raster)
    (h1 : ∀ i j, i < src.height → j < src.width → src.readBand 1 i j = 10)
    (h2 : ∀ i j, i < src.height → j < src.width → src.readBand 2 i j = 20)
    (h3 : ∀ i j, i < src.height → j < src.width → src.readBand 3 i j = 30) :
    (arr_from_geotiff src 1 2 3).height = src.height ∧
    (arr_from_geotiff src 1 2 3).width = src.width ∧
    ∀ i j, i < src.height → j < src.width →
      (arr_from_geotiff src 1 2 3).pix i j 0 = 10 ∧
      (arr_from_geotiff src 1 2 3).pix i j 1 = 20 ∧
      (arr_from_geotiff src 1 2 3).pix i j 2 = 30 := by
  refine ⟨rfl, rfl, fun i j hi hj => ⟨?_, ?_, ?_⟩⟩
  · rw [(arr_pix src 1 2 3 i j).1, h1 i j hi hj]; decide
  · rw [(arr_pix src 1 2 3 i j).2.1, h2 i j hi hj]; decide
  · rw [(arr_pix src 1 2 3 i j).2.2, h3 i j hi hj]; decide

/-- Claim C3 witness: the concrete constant raster converts to 10/20/30 on
channels 0/1/2 and keeps its 2×2 dimensions. -/
theorem C3_convert_default_mapping_witness :
    (arr_from_geotiff constRaster 1 2 3).pix 0 0 0 = 10 ∧
    (arr_from_geotiff constRaster 1 2 3).pix 1 1 1 = 20 ∧
    (arr_from_geotiff constRaster 1 2 3).pix 0 1 2 = 30 ∧
    (arr_from_geotiff constRaster 1 2 3).height = 2 ∧
    (arr_from_geotiff constRaster 1 2 3).width = 2 :=
  have h := C3_convert_default_mapping constRaster
    (fun _ _ _ _ => rfl) (fun _ _ _ _ => rfl) (fun _ _ _ _ => rfl)
  ⟨(h.2.2 0 0 (by decide) (by decide)).1, (h.2.2 1 1 (by decide) (by decide)).2.1,
   (h.2.2 0 1 (by decide) (by decide)).2.2, h.1, h.2.1⟩

/-- Claim C4: the channel assignment is exactly channel 0 from `r_channel`,
channel 1 from `g_channel`, channel 2 from `b_channel`, for every choice of
band indices; in particular, on the constant 10/20/30 raster the reordering
(3, 1, 2) yields channel 0 uniformly 30, channel 1 uniformly 10, channel 2
uniformly 20. -/
theorem C4_convert_channel_reordering (src : Raster)
    (h1 : ∀ i j, i < src.height → j < src.width → src.readBand 1 i j = 10)
    (h2 : ∀ i j, i < src.height → j < src.width → src.readBand 2 i j = 20)
    (h3 : ∀ i j, i < src.height → j < src.width → src.readBand 3 i j = 30) :
    (∀ rc gc bc i j : Nat,
      (arr_from_geotiff src rc gc bc).pix i j 0 = uint8cast (src.readBand rc i j) ∧
      (arr_from_geotiff src rc gc bc).pix i j 1 = uint8cast (src.readBand gc i j) ∧
      (arr_from_geotiff src rc gc bc).pix i j 2 = uint8cast (src.readBand bc i j)) ∧
    ∀ i j, i < src.height → j < src.width →
      (arr_from_geotiff src 3 1 2).pix i j 0 = 30 ∧
      (arr_from_geotiff src 3 1 2).pix i j 1 = 10 ∧
      (arr_from_geotiff src 3 1 2).pix i j 2 = 20 := by
  refine ⟨fun rc gc bc i j => arr_pix src rc gc bc i j,
    fun i j hi hj => ⟨?_, ?_, ?_⟩⟩
  · rw [(arr_pix src 3 1 2 i j).1, h3 i j hi hj]; decide
  · rw [(arr_pix src 3 1 2 i j).2.1, h1 i j hi hj]; decide
  · rw [(arr_pix src 3 1 2 i j).2.2, h2 i j hi hj]; decide

/-- Claim C4 witness: on the concrete constant raster, conversion with band
order (3, 1, 2) yields 30/10/20 on channels 0/1/2. -/
theorem C4_convert_channel_reordering_witness :
    (arr_from_geotiff constRaster 3 1 2).pix 0 0 0 = 30 ∧
    (arr_from_geotiff constRaster 3 1 2).pix 1 0 1 = 10 ∧
    (arr_from_geotiff constRaster 3 1 2).pix 1 1 2 = 20 :=
  have h := C4_convert_channel_reordering constRaster
    (fun _ _ _ _ => rfl) (fun _ _ _ _ => rfl) (fun _ _ _ _ => rfl)
  ⟨(h.2 0 0 (by decide) (by decide)).1, (h.2 1 0 (by decide) (by decide)).2.1,
   (h.2 1 1 (by decide) (by decide)).2.2⟩

/-- Claim C5: `save_img` writes to `{output_dir}/{name}.{format}`, and a
trailing path separator on `output_dir` never changes the final path: for
every directory, name and format, the path with `"/"` appended and the path
without it produce the identical file name; concretely `"out/"` and `"out"`
both give `"out/x.png"`. -/
theorem C5_trailing_slash_same_path :
    (∀ name format outputDir : Str,
      save_fname name format (outputDir ++ ['/']) = save_fname name format outputDir) ∧
    save_fname ("x".toList) ("png".toList) ("out/".toList) = "out/x.png".toList ∧
    save_fname ("x".toList) ("png".toList) ("out".toList) = "out/x.png".toList := by
  refine ⟨fun name format outputDir => ?_, by decide, by decide⟩
  simp [save_fname, trim_slash_from_path, List.dropWhile_cons]

/-- Claim C6: for a path not carrying the `.tif` suffix, `arr_from_geotiff`
opens `p ++ ".tif"`, and on the already-suffixed counterpart
`p ++ ".tif"` it opens the same file — the two calls read the identical
path. -/
theorem C6_suffix_normalization_same_file (p : Str)
    (h : tifSuffix.isSuffixOf p = false) :
    normalize_fname p = p ++ tifSuffix ∧
    normalize_fname (p ++ tifSuffix) = p ++ tifSuffix := by
  constructor
  · simp [normalize_fname, h]
  · have hs : tifSuffix.isSuffixOf (p ++ tifSuffix) = true := by
      rw [List.isSuffixOf_iff_suffix]
      exact List.suffix_append p tifSuffix
    simp [normalize_fname, hs]

/-- Claim C6 witness: `"map"` and `"map.tif"` resolve to the same opened
path `"map.tif"`. -/
theorem C6_suffix_normalization_same_file_witness :
    normalize_fname ("map".toList) = "map".toList ++ tifSuffix ∧
    normalize_fname ("map".toList ++ tifSuffix) = "map".toList ++ tifSuffix :=
  C6_suffix_normalization_same_file ("map".toList) (by decide)

/-- Claim C7: conversion never raises and never clamps: for every raster,
every band choice and every pixel, the stored channel value is the sample
reduced modulo 2^8 (`Int.emod` by 256, then `toNat` — the numpy `uint8`
wrap); concretely the out-of-range samples 300, -1 and 1000 are stored as
44, 255 and 232. -/
theorem C7_uint8_wrap_no_clamp :
    (∀ (src : Raster) (rc gc bc i j : Nat),
      (arr_from_geotiff src rc gc bc).pix i j 0 = (src.readBand rc i j % 256).toNat ∧
      (arr_from_geotiff src rc gc bc).pix i j 1 = (src.readBand gc i j % 256).toNat ∧
      (arr_from_geotiff src rc gc bc).pix i j 2 = (src.readBand bc i j % 256).toNat) ∧
    (arr_from_geotiff hotRaster 1 2 3).pix 0 0 0 = 44 ∧
    (arr_from_geotiff hotRaster 1 2 3).pix 0 0 1 = 255 ∧
    (arr_from_geotiff hotRaster 1 2 3).pix 0 0 2 = 232 :=
  ⟨fun src rc gc bc i j => arr_pix src rc gc bc i j, by decide, by decide, by decide⟩

/-- Claim C8: `save_img` unconditionally appends `"." ++ format` to the
given name when forming the output file name; in particular for
`name = "test.png"`, `format = "png"` the file written is
`"out/test.png.png"`, not `"out/test.png"`. -/
theorem C8_unconditional_extension_append :
    (∀ name format outputDir : Str,
      save_fname name format outputDir =
        trim_slash_from_path outputDir ++ '/' :: (name ++ '.' :: format)) ∧
    save_fname ("test.png".toList) ("png".toList) ("out".toList)
      = "out/test.png.png".toList ∧
    save_fname ("test.png".toList) ("png".toList) ("out".toList)
      ≠ "out/test.png".toList :=
  ⟨fun _ _ _ => rfl, by decide, by decide⟩

/-- Claim C9: the path `arr_from_geotiff` actually opens always ends in
`".tif"`, and the suffix test is an exact, case-sensitive string-suffix
check: variant spellings such as `".tiff"` or `".TIF"` are not accepted as
already suffixed and get `".tif"` appended. -/
theorem C9_opened_path_ends_in_tif :
    (∀ p : Str, tifSuffix <:+ normalize_fname p) ∧
    normalize_fname ("x.tiff".toList) = "x.tiff.tif".toList ∧
    normalize_fname ("x.TIF".toList) = "x.TIF.tif".toList := by
  refine ⟨fun p => ?_, by decide, by decide⟩
  by_cases h : tifSuffix.isSuffixOf p
  · simp only [normalize_fname, h, if_true]
    exact List.isSuffixOf_iff_suffix.mp h
  · simp only [normalize_fname, h]
    simp

/-- Claim C10: `save_img`'s first filesystem effect is the recursive
directory creation and only then the image write; when the write fails,
the run still reports failure but the trimmed output directory and all its
`/`-boundary ancestors exist in the resulting filesystem — the operation
does not leave the filesystem unchanged on error. -/
theorem C10_mkdir_before_write (fs : FS) (name format outputDir : Str) :
    (save_img_ops name format outputDir).head? =
      some (FsOp.mkdirAll (trim_slash_from_path outputDir)) ∧
    (runFsOps fs false (save_img_ops name format outputDir)).2 = false ∧
    trim_slash_from_path outputDir ∈
      (runFsOps fs false (save_img_ops name format outputDir)).1.dirs ∧
    ∀ a ∈ dirAncestors (trim_slash_from_path outputDir),
      a ∈ (runFsOps fs false (save_img_ops name format outputDir)).1.dirs := by
  refine ⟨rfl, rfl, ?_, ?_⟩
  · simp [save_img_ops, runFsOps, runFsOp]
  · intro a ha
    simp [save_img_ops, runFsOps, runFsOp]
    exact Or.inr (Or.inl ha)

/-- Claim C10 witness: starting from an empty filesystem and a failing
write, saving under `"nested/new/dir"` leaves that directory existing even
though the overall run failed. -/
theorem C10_mkdir_before_write_witness :
    trim_slash_from_path ("nested/new/dir".toList) ∈
      (runFsOps ⟨[]⟩ false (save_img_ops ("test".toList) ("png".toList)
        ("nested/new/dir".toList))).1.dirs ∧
    (runFsOps ⟨[]⟩ false (save_img_ops ("test".toList) ("png".toList)
      ("nested/new/dir".toList))).2 = false :=
  ⟨(C10_mkdir_before_write ⟨[]⟩ ("test".toList) ("png".toList)
      ("nested/new/dir".toList)).2.2.1,
   (C10_mkdir_before_write ⟨[]⟩ ("test".toList) ("png".toList)
      ("nested/new/dir".toList)).2.1⟩

end Earth
